import Mathlib

set_option maxRecDepth 8000

/-!
# Verification of the bot-hosting backend supervisor (src/app.py)

Shallow embedding of the Flask bot-hosting backend.  The two module-level
dicts `bots_db` and `running_processes`, together with the files under
`UPLOAD_FOLDER`, form the server state; each route handler becomes a pure
function from a state (plus the external inputs the handler consumes:
clock readings, the spawned pid, the outcome of `process.wait`, psutil
samples) to an HTTP-level result and a successor state.  Python dicts are
modelled as insertion-ordered association lists with the usual dict
update/delete semantics; file contents are lists of characters.
-/

namespace BotHost

/-- Python dict lookup `d[k]` / membership `k in d` (keys are unique). -/
def dictGet {β : Type} (k : String) : List (String × β) → Option β
  | [] => none
  | (k', v) :: rest => if k' = k then some v else dictGet k rest

/-- Python dict assignment `d[k] = v`: replaces in place, else appends. -/
def dictSet {β : Type} (k : String) (v : β) : List (String × β) → List (String × β)
  | [] => [(k, v)]
  | (k', v') :: rest => if k' = k then (k, v) :: rest else (k', v') :: dictSet k v rest

/-- Python dict deletion `del d[k]` (also `os.remove` on the modelled fs). -/
def dictDel {β : Type} (k : String) : List (String × β) → List (String × β)
  | [] => []
  | (k', v') :: rest => if k' = k then dictDel k rest else (k', v') :: dictDel k rest

/-- `UPLOAD_FOLDER = '/tmp/bots'` (src/app.py line 27). -/
def UPLOAD_FOLDER : String := "/tmp/bots"

/-- `ALLOWED_EXTENSIONS = {'py', 'js'}` (line 28). -/
def ALLOWED_EXTENSIONS : List String := ["py", "js"]

/-- `MAX_BOTS_PER_USER = 3` (line 29). -/
def MAX_BOTS_PER_USER : Nat := 3

/-- Python `s.split(sep)` for a one-character separator on file/filename
text: keeps empty segments, and the split of the empty string is `[""]`. -/
def pySplit (sep : Char) : List Char → List (List Char)
  | [] => [[]]
  | c :: rest =>
    let r := pySplit sep rest
    if c = sep then [] :: r
    else
      match r with
      | [] => [[c]]
      | l :: ls => (c :: l) :: ls

/-- Python `s.lower()` (the filenames of interest are ASCII). -/
def strToLower (s : String) : String := ⟨s.data.map Char.toLower⟩

/-- `b.startswith('/')`, the absolute-path test of `os.path.join`. -/
def startsWithSlash (b : String) : Bool :=
  match b.data with
  | [] => false
  | c :: _ => c = '/'

/-- `os.path.join(a, b)`: an absolute second component discards the first. -/
def os_path_join (a b : String) : String :=
  if startsWithSlash b then b else a ++ "/" ++ b

/-- Python `s.rsplit('.', 1)[1]`: the text after the last dot (callers
guard with `'.' in s`, under which the two agree). -/
def extAfterLastDot (s : String) : String :=
  ⟨(pySplit '.' s.data).getLastD []⟩

/-- `allowed_file` (lines 37-38): the filename has a dot and its suffix,
lowercased, is an allowed extension.  The stored `file_type` (line 117)
is the suffix WITHOUT lowercasing. -/
def allowed_file (filename : String) : Bool :=
  filename.data.contains '.' &&
    decide (strToLower (extAfterLastDot filename) ∈ ALLOWED_EXTENSIONS)

/-- `generate_bot_id` (lines 40-42): `f"{username}_{bot_name}_{timestamp}"`
where `timestamp = int(time.time())` is passed in as the clock reading
(whole seconds). -/
def generate_bot_id (username bot_name : String) (timestamp : Nat) : String :=
  username ++ "_" ++ bot_name ++ "_" ++ toString timestamp

/-- The dict literal stored at upload (lines 112-120) in source order;
note the seventh key `'status'` on line 119. -/
def uploadRecordKeys : List String :=
  ["id", "name", "username", "filepath", "file_type", "created_at", "status"]

/-- The bot metadata dict stored in `bots_db` (lines 112-120).  All
values are strings; the keys are exactly `uploadRecordKeys`. -/
structure BotRecord where
  id : String
  name : String
  username : String
  filepath : String
  file_type : String
  created_at : String
  status : String
deriving DecidableEq

/-- A `running_processes` entry (lines 162-167).  The Popen handle itself
is not a value; its behaviour (pid, wait outcomes) enters the model as
explicit inputs to the operations that use it. -/
structure RunningProcess where
  pid : Nat
  log_file : String
  started_at : String
deriving DecidableEq

/-- The server state: `bots_db` (line 32), `running_processes` (line 33),
and the files under `UPLOAD_FOLDER` (path → content). -/
structure ServerState where
  bots_db : List (String × BotRecord)
  running_processes : List (String × RunningProcess)
  fs : List (String × List Char)
deriving DecidableEq

/-- An HTTP-level outcome: `.ok` on a 200 jsonify with success True, or
`.error (code, message)` for the error responses. -/
abbrev Resp (α : Type) := Except (Nat × String) α

/-- Signals delivered to a child process by an operation. -/
inductive ProcEvent where
  | terminate (pid : Nat)
  | kill (pid : Nat)
  | spawn (pid : Nat)
deriving DecidableEq

/-- Outcome of `process.terminate(); process.wait(timeout=5)`: the process
exited within the timeout, the wait timed out (`subprocess.TimeoutExpired`),
or some other exception was raised during termination. -/
inductive WaitOutcome where
  | exited
  | timeout
  | failure (msg : String)
deriving DecidableEq

/-- `get_process_stats` (lines 44-52): the psutil sample (already rounded)
when the process is alive and accessible, zeros on any exception. -/
def get_process_stats (sample : Option (Nat × Nat)) : Nat × Nat :=
  match sample with
  | some s => s
  | none => (0, 0)

/-- The multipart form data of an upload request: the `bot_file` part's
filename (when present), its bytes, and the `username` / `bot_name`
form fields (absent fields are `none`). -/
structure UploadRequest where
  bot_file : Option String
  file_content : List Char
  username : Option String
  bot_name : Option String

/-- The 403 quota message (lines 99-102). -/
def quotaMessage : String :=
  "Free tier limit: " ++ toString MAX_BOTS_PER_USER ++ " bots per user"

/-- `upload_bot` (lines 83-128).  External inputs: `secure` is werkzeug's
`secure_filename`, `timestamp` is `int(time.time())`, `now_iso` is
`datetime.now().isoformat()`.  Python falsiness of a missing or empty
field and of a `FileStorage` with an empty filename is modelled by the
`Option`/emptiness checks. -/
def upload_bot (st : ServerState) (req : UploadRequest) (secure : String → String)
    (timestamp : Nat) (now_iso : String) : Resp String × ServerState :=
  match req.bot_file with
  | none => (.error (400, "No file uploaded"), st)
  | some fname =>
    match req.username, req.bot_name with
    | some username, some bot_name =>
      if username = "" || bot_name = "" then
        (.error (400, "Missing username or bot_name"), st)
      else
        let user_bot_count := (st.bots_db.filter (fun b => b.2.username = username)).length
        if MAX_BOTS_PER_USER ≤ user_bot_count then
          (.error (403, quotaMessage), st)
        else if fname ≠ "" && allowed_file fname then
          let bot_id := generate_bot_id username bot_name timestamp
          let filename := secure (bot_id ++ "." ++ extAfterLastDot fname)
          let filepath := os_path_join UPLOAD_FOLDER filename
          let record : BotRecord :=
            { id := bot_id
              name := bot_name
              username := username
              filepath := filepath
              file_type := extAfterLastDot fname
              created_at := now_iso
              status := "stopped" }
          (.ok bot_id,
           { st with
             bots_db := dictSet bot_id record st.bots_db
             fs := dictSet filepath req.file_content st.fs })
        else
          (.error (400, "Invalid file type"), st)
    | _, _ => (.error (400, "Missing username or bot_name"), st)

/-- `start_bot` (lines 130-176).  `spawnResult` is the outcome of
`subprocess.Popen`: the child pid, or the exception message.  On the
supported-file-type path the log file is opened with mode `'w'`
(truncated) before the spawn is attempted. -/
def start_bot (st : ServerState) (bot_id : String) (spawnResult : Except String Nat)
    (now_iso : String) : Resp Nat × ServerState × List ProcEvent :=
  match dictGet bot_id st.bots_db with
  | none => (.error (404, "Bot not found"), st, [])
  | some bot =>
    if (dictGet bot_id st.running_processes).isSome then
      (.error (400, "Bot already running"), st, [])
    else
      if bot.file_type = "py" || bot.file_type = "js" then
        let log_file := os_path_join UPLOAD_FOLDER (bot_id ++ ".log")
        let fs' := dictSet log_file [] st.fs
        match spawnResult with
        | .error e => (.error (500, "Failed to start bot: " ++ e), { st with fs := fs' }, [])
        | .ok pid =>
          let rp : RunningProcess :=
            { pid := pid, log_file := log_file, started_at := now_iso }
          (.ok pid,
           { st with running_processes := dictSet bot_id rp st.running_processes, fs := fs' },
           [.spawn pid])
      else
        (.error (400, "Unsupported file type"), st, [])

/-- `stop_bot` (lines 178-199).  On `exited` the graceful path removes the
entry; on `timeout` the `subprocess.TimeoutExpired` handler kills and
removes the entry; on any other `failure` the generic handler returns 500
and does NOT touch `running_processes`. -/
def stop_bot (st : ServerState) (bot_id : String) (outcome : WaitOutcome) :
    Resp String × ServerState × List ProcEvent :=
  match dictGet bot_id st.running_processes with
  | none => (.error (400, "Bot is not running"), st, [])
  | some rp =>
    match outcome with
    | .exited =>
      (.ok "Bot stopped successfully",
       { st with running_processes := dictDel bot_id st.running_processes },
       [.terminate rp.pid])
    | .timeout =>
      (.ok "Bot force-stopped",
       { st with running_processes := dictDel bot_id st.running_processes },
       [.terminate rp.pid, .kill rp.pid])
    | .failure msg =>
      (.error (500, "Failed to stop bot: " ++ msg), st, [])

/-- `delete_bot` (lines 201-232).  The stop attempt wraps
`terminate; wait; del running_processes[bot_id]` in a bare
`try/except: pass`, so on `timeout` or `failure` the `del` is skipped
(and no `kill` is ever issued); file removal and the `bots_db` deletion
always follow. -/
def delete_bot (st : ServerState) (bot_id : String) (outcome : WaitOutcome) :
    Resp String × ServerState × List ProcEvent :=
  match dictGet bot_id st.bots_db with
  | none => (.error (404, "Bot not found"), st, [])
  | some bot =>
    let stopped : ServerState × List ProcEvent :=
      match dictGet bot_id st.running_processes with
      | none => (st, [])
      | some rp =>
        match outcome with
        | .exited =>
          ({ st with running_processes := dictDel bot_id st.running_processes },
           [.terminate rp.pid])
        | .timeout => (st, [.terminate rp.pid])
        | .failure _ => (st, [])
    let st1 := stopped.1
    let log_file := os_path_join UPLOAD_FOLDER (bot_id ++ ".log")
    let st2 : ServerState :=
      { st1 with
        fs := dictDel log_file (dictDel bot.filepath st1.fs)
        bots_db := dictDel bot_id st1.bots_db }
    (.ok "Bot deleted successfully", st2, stopped.2)

/-- Python `'\n'.join(lines)`. -/
def joinNl (lines : List (List Char)) : List Char :=
  (lines.intersperse ['\n']).flatten

/-- The "no logs yet" sentinel (line 243). -/
def noLogsSentinel : List Char := "No logs available yet".toList

/-- `get_bot_logs` (lines 234-257): 404 when the bot is unknown, the
sentinel when no log file exists, otherwise the content truncated to the
last 1000 elements of `content.split('\n')`. -/
def get_bot_logs (st : ServerState) (bot_id : String) : Resp (List Char) :=
  match dictGet bot_id st.bots_db with
  | none => .error (404, "Bot not found")
  | some _ =>
    let log_file := os_path_join UPLOAD_FOLDER (bot_id ++ ".log")
    match dictGet log_file st.fs with
    | none => .ok noLogsSentinel
    | some content =>
      let lines := pySplit '\n' content
      if 1000 < lines.length then
        .ok (joinNl (lines.drop (lines.length - 1000)))
      else
        .ok content

/-- The merged view returned by `get_bot_status` (and, without
`started_at`, by the per-user listing): the stored record's fields with
`status`, `cpu`, `memory` overwritten and `started_at` added only in the
running branch. -/
structure BotStatusView where
  id : String
  name : String
  username : String
  filepath : String
  file_type : String
  created_at : String
  status : String
  cpu : Nat
  memory : Nat
  started_at : Option String
deriving DecidableEq

/-- `get_bot_status` (lines 259-279).  `probe pid` is the psutil sample
for `pid` (`none` when the process is gone / inaccessible), fed through
`get_process_stats`. -/
def get_bot_status (st : ServerState) (bot_id : String)
    (probe : Nat → Option (Nat × Nat)) : Resp BotStatusView :=
  match dictGet bot_id st.bots_db with
  | none => .error (404, "Bot not found")
  | some bot =>
    match dictGet bot_id st.running_processes with
    | some rp =>
      let stats := get_process_stats (probe rp.pid)
      .ok { id := bot.id, name := bot.name, username := bot.username,
            filepath := bot.filepath, file_type := bot.file_type,
            created_at := bot.created_at, status := "running",
            cpu := stats.1, memory := stats.2,
            started_at := some rp.started_at }
    | none =>
      .ok { id := bot.id, name := bot.name, username := bot.username,
            filepath := bot.filepath, file_type := bot.file_type,
            created_at := bot.created_at, status := "stopped",
            cpu := 0, memory := 0, started_at := none }

/-! ## Association-list (dict) lemmas -/

instance instDecEqExcept {ε α : Type} [DecidableEq ε] [DecidableEq α] :
    DecidableEq (Except ε α) := fun x y =>
  match x, y with
  | .error a, .error b =>
    if h : a = b then isTrue (by rw [h]) else isFalse (by simp [h])
  | .error _, .ok _ => isFalse (by simp)
  | .ok _, .error _ => isFalse (by simp)
  | .ok a, .ok b =>
    if h : a = b then isTrue (by rw [h]) else isFalse (by simp [h])

theorem dictGet_dictSet_self {β : Type} (k : String) (v : β) (d : List (String × β)) :
    dictGet k (dictSet k v d) = some v := by
  induction d with
  | nil => simp [dictSet, dictGet]
  | cons p rest ih =>
    obtain ⟨k', v'⟩ := p
    by_cases h : k' = k
    · simp [dictSet, dictGet, h]
    · simp [dictSet, dictGet, h, ih]

theorem dictGet_dictSet_ne {β : Type} (k k' : String) (v : β) (d : List (String × β))
    (h : k' ≠ k) : dictGet k' (dictSet k v d) = dictGet k' d := by
  induction d with
  | nil => simp [dictSet, dictGet, Ne.symm h]
  | cons p rest ih =>
    obtain ⟨k₀, v₀⟩ := p
    by_cases hk : k₀ = k
    · subst hk
      simp [dictSet, dictGet, Ne.symm h]
    · simp [dictSet, dictGet, hk, ih]

theorem dictGet_dictDel_self {β : Type} (k : String) (d : List (String × β)) :
    dictGet k (dictDel k d) = none := by
  induction d with
  | nil => simp [dictDel, dictGet]
  | cons p rest ih =>
    obtain ⟨k₀, v₀⟩ := p
    by_cases h : k₀ = k
    · simp [dictDel, h, ih]
    · simp [dictDel, dictGet, h, ih]

theorem dictGet_dictDel_ne {β : Type} (k k' : String) (d : List (String × β))
    (h : k' ≠ k) : dictGet k' (dictDel k d) = dictGet k' d := by
  induction d with
  | nil => simp [dictDel]
  | cons p rest ih =>
    obtain ⟨k₀, v₀⟩ := p
    by_cases hk : k₀ = k
    · subst hk
      simp [dictDel, dictGet, Ne.symm h, ih]
    · simp [dictDel, dictGet, hk, ih]

theorem length_dictSet_of_fresh {β : Type} (k : String) (v : β) (d : List (String × β))
    (h : dictGet k d = none) : (dictSet k v d).length = d.length + 1 := by
  induction d with
  | nil => simp [dictSet]
  | cons p rest ih =>
    obtain ⟨k₀, v₀⟩ := p
    by_cases hk : k₀ = k
    · simp [dictGet, hk] at h
    · simp [dictGet, hk] at h
      simp [dictSet, hk, ih h]

theorem length_dictSet_of_present {β : Type} (k : String) (v : β) (d : List (String × β))
    (h : (dictGet k d).isSome) : (dictSet k v d).length = d.length := by
  induction d with
  | nil => simp [dictGet] at h
  | cons p rest ih =>
    obtain ⟨k₀, v₀⟩ := p
    by_cases hk : k₀ = k
    · simp [dictSet, hk]
    · simp [dictGet, hk] at h
      simp [dictSet, hk, ih h]

/-! ## Sample states -/

/-- An empty server state (module load, before any request). -/
def stEmpty : ServerState := ⟨[], [], []⟩

/-- A registered `py` bot for owner `alice`. -/
def recA : BotRecord :=
  { id := "alice_echo_7", name := "echo", username := "alice",
    filepath := "/tmp/bots/alice_echo_7.py", file_type := "py",
    created_at := "t0", status := "stopped" }

/-- A Process Table entry for `recA`. -/
def rpA : RunningProcess :=
  { pid := 42, log_file := "/tmp/bots/alice_echo_7.log", started_at := "t1" }

/-- State in which `recA` is registered and running. -/
def stRunning : ServerState :=
  ⟨[("alice_echo_7", recA)], [("alice_echo_7", rpA)], []⟩

/-- State in which `recA` is registered and not running (no log file). -/
def stStopped : ServerState :=
  ⟨[("alice_echo_7", recA)], [], []⟩

/-- A stats probe that always samples cpu 3, memory 14. -/
def probeA : Nat → Option (Nat × Nat) := fun _ => some (3, 14)

/-! ## Claims -/

/-- C1: for every bot id present in the Registry, `get_bot_status` reports
status `"running"` — with cpu/memory from the Stats Probe and `started_at`
from the `RunningProcess` — exactly when a Process Table entry exists for
that id, and reports `"stopped"` with cpu = 0 and memory = 0 otherwise. -/
theorem c1_status_iff_running (st : ServerState) (probe : Nat → Option (Nat × Nat))
    (bot_id : String) (b : BotRecord) (hdb : dictGet bot_id st.bots_db = some b) :
    (∀ rp, dictGet bot_id st.running_processes = some rp →
      get_bot_status st bot_id probe =
        .ok { id := b.id, name := b.name, username := b.username,
              filepath := b.filepath, file_type := b.file_type,
              created_at := b.created_at, status := "running",
              cpu := (get_process_stats (probe rp.pid)).1,
              memory := (get_process_stats (probe rp.pid)).2,
              started_at := some rp.started_at }) ∧
    (dictGet bot_id st.running_processes = none →
      get_bot_status st bot_id probe =
        .ok { id := b.id, name := b.name, username := b.username,
              filepath := b.filepath, file_type := b.file_type,
              created_at := b.created_at, status := "stopped",
              cpu := 0, memory := 0, started_at := none }) := by
  constructor
  · intro rp hrp
    simp [get_bot_status, hdb, hrp]
  · intro hrp
    simp [get_bot_status, hdb, hrp]

/-- Witness for C1 on concrete running and stopped states. -/
theorem c1_witness :
    get_bot_status stRunning "alice_echo_7" probeA =
      .ok { id := "alice_echo_7", name := "echo", username := "alice",
            filepath := "/tmp/bots/alice_echo_7.py", file_type := "py",
            created_at := "t0", status := "running",
            cpu := 3, memory := 14, started_at := some "t1" } ∧
    get_bot_status stStopped "alice_echo_7" probeA =
      .ok { id := "alice_echo_7", name := "echo", username := "alice",
            filepath := "/tmp/bots/alice_echo_7.py", file_type := "py",
            created_at := "t0", status := "stopped",
            cpu := 0, memory := 0, started_at := none } :=
  ⟨(c1_status_iff_running stRunning probeA "alice_echo_7" recA rfl).1 rpA rfl,
   (c1_status_iff_running stStopped probeA "alice_echo_7" recA rfl).2 rfl⟩

/-- C5: starting a bot that is registered and already has a Process Table
entry fails with the already-running error, spawns no process (no spawn
event, and `subprocess.Popen` is never reached), and leaves the whole
state — in particular the existing Process Table entry — unchanged. -/
theorem c5_start_already_running (st : ServerState) (bot_id : String)
    (b : BotRecord) (rp : RunningProcess) (spawnResult : Except String Nat) (iso : String)
    (hdb : dictGet bot_id st.bots_db = some b)
    (hrp : dictGet bot_id st.running_processes = some rp) :
    (start_bot st bot_id spawnResult iso).1 = .error (400, "Bot already running") ∧
    (start_bot st bot_id spawnResult iso).2.1 = st ∧
    (start_bot st bot_id spawnResult iso).2.2 = [] := by
  simp [start_bot, hdb, hrp]

/-- Witness for C5 on the concrete running state. -/
theorem c5_witness :
    (start_bot stRunning "alice_echo_7" (.ok 99) "t2").1 =
      .error (400, "Bot already running") ∧
    (start_bot stRunning "alice_echo_7" (.ok 99) "t2").2.1 = stRunning ∧
    (start_bot stRunning "alice_echo_7" (.ok 99) "t2").2.2 = [] :=
  c5_start_already_running stRunning "alice_echo_7" recA rpA (.ok 99) "t2" rfl rfl

/-- C9: for a registered bot with no log file at its derived log path,
`get_bot_logs` succeeds with the "no logs yet" sentinel. -/
theorem c9_no_logs_sentinel (st : ServerState) (bot_id : String) (b : BotRecord)
    (hdb : dictGet bot_id st.bots_db = some b)
    (hfs : dictGet (os_path_join UPLOAD_FOLDER (bot_id ++ ".log")) st.fs = none) :
    get_bot_logs st bot_id = .ok noLogsSentinel := by
  simp [get_bot_logs, hdb, hfs]

/-- Witness for C9 on the concrete never-started state. -/
theorem c9_witness : get_bot_logs stStopped "alice_echo_7" = .ok noLogsSentinel :=
  c9_no_logs_sentinel stStopped "alice_echo_7" recA rfl rfl

/-- C2 counterexample: when termination raises an exception other than
`subprocess.TimeoutExpired` (the generic `except Exception` handler,
src/app.py lines 198-199), `stop_bot` returns a 500 failure and does NOT
remove the Process Table entry, so the bot's status is still "running"
afterward — refuting "in all cases removes the Process Table entry". -/
theorem c2_counterexample :
    (stop_bot stRunning "alice_echo_7" (.failure "boom")).1 =
      .error (500, "Failed to stop bot: boom") ∧
    (stop_bot stRunning "alice_echo_7" (.failure "boom")).2.1 = stRunning ∧
    dictGet "alice_echo_7"
      (stop_bot stRunning "alice_echo_7" (.failure "boom")).2.1.running_processes =
      some rpA ∧
    get_bot_status (stop_bot stRunning "alice_echo_7" (.failure "boom")).2.1
      "alice_echo_7" probeA =
      .ok { id := "alice_echo_7", name := "echo", username := "alice",
            filepath := "/tmp/bots/alice_echo_7.py", file_type := "py",
            created_at := "t0", status := "running",
            cpu := 3, memory := 14, started_at := some "t1" } := by
  decide

/-- C2 amended: for a bot with a Process Table entry, `stop_bot` removes
the entry both on graceful exit within the timeout and on forced kill
after `subprocess.TimeoutExpired`; but if termination raises any other
exception, it returns a 500 failure and leaves the state (in particular
the Process Table entry) unchanged. -/
theorem c2_stop_removes_entry_unless_exception (st : ServerState) (bot_id : String)
    (rp : RunningProcess) (hrp : dictGet bot_id st.running_processes = some rp) :
    ((stop_bot st bot_id .exited).1 = .ok "Bot stopped successfully" ∧
     dictGet bot_id (stop_bot st bot_id .exited).2.1.running_processes = none ∧
     (stop_bot st bot_id .exited).2.2 = [.terminate rp.pid]) ∧
    ((stop_bot st bot_id .timeout).1 = .ok "Bot force-stopped" ∧
     dictGet bot_id (stop_bot st bot_id .timeout).2.1.running_processes = none ∧
     (stop_bot st bot_id .timeout).2.2 = [.terminate rp.pid, .kill rp.pid]) ∧
    (∀ msg, (stop_bot st bot_id (.failure msg)).1 =
        .error (500, "Failed to stop bot: " ++ msg) ∧
      (stop_bot st bot_id (.failure msg)).2.1 = st) := by
  refine ⟨⟨?_, ?_, ?_⟩, ⟨?_, ?_, ?_⟩, ?_⟩ <;>
    simp [stop_bot, hrp, dictGet_dictDel_self]

/-- Witness for C2's amended theorem on the concrete running state. -/
theorem c2_witness :
    (stop_bot stRunning "alice_echo_7" .exited).1 = .ok "Bot stopped successfully" ∧
    dictGet "alice_echo_7"
      (stop_bot stRunning "alice_echo_7" .exited).2.1.running_processes = none ∧
    (stop_bot stRunning "alice_echo_7" .timeout).1 = .ok "Bot force-stopped" ∧
    (stop_bot stRunning "alice_echo_7" (.failure "x")).2.1 = stRunning :=
  ⟨(c2_stop_removes_entry_unless_exception stRunning "alice_echo_7" rpA rfl).1.1,
   (c2_stop_removes_entry_unless_exception stRunning "alice_echo_7" rpA rfl).1.2.1,
   (c2_stop_removes_entry_unless_exception stRunning "alice_echo_7" rpA rfl).2.1.1,
   ((c2_stop_removes_entry_unless_exception stRunning "alice_echo_7" rpA rfl).2.2 "x").2⟩

/-- C3: deleting a running bot whose process does not exit within the 5 s
wait (`process.wait(timeout=5)` raises `subprocess.TimeoutExpired`, caught
by the bare `except: pass` of src/app.py lines 208-215): the `del
running_processes[bot_id]` on line 213 is skipped, no `kill` is ever
issued, yet the Registry entry is still removed — so the Process Table
retains an entry for a bot the Registry no longer knows, contradicting
the claim that Delete removes the Process Table entry even when graceful
termination fails or times out. -/
theorem c3_delete_leaves_process_entry_on_timeout :
    (delete_bot stRunning "alice_echo_7" .timeout).1 = .ok "Bot deleted successfully" ∧
    dictGet "alice_echo_7" (delete_bot stRunning "alice_echo_7" .timeout).2.1.bots_db =
      none ∧
    dictGet "alice_echo_7"
      (delete_bot stRunning "alice_echo_7" .timeout).2.1.running_processes = some rpA ∧
    (delete_bot stRunning "alice_echo_7" .timeout).2.2 = [.terminate 42] := by
  decide

/-- First registered bot of owner `alice`. -/
def recQA : BotRecord :=
  { id := "alice_a_1", name := "a", username := "alice",
    filepath := "/tmp/bots/alice_a_1.py", file_type := "py",
    created_at := "t0", status := "stopped" }

/-- Second registered bot of owner `alice`. -/
def recQB : BotRecord :=
  { id := "alice_b_2", name := "b", username := "alice",
    filepath := "/tmp/bots/alice_b_2.py", file_type := "py",
    created_at := "t0", status := "stopped" }

/-- Third registered bot of owner `alice`. -/
def recQC : BotRecord :=
  { id := "alice_c_3", name := "c", username := "alice",
    filepath := "/tmp/bots/alice_c_3.js", file_type := "js",
    created_at := "t0", status := "stopped" }

/-- Three registered bots for owner `alice` (her quota is full). -/
def stQuotaFull : ServerState :=
  ⟨[("alice_a_1", recQA), ("alice_b_2", recQB), ("alice_c_3", recQC)], [], []⟩

/-- Two registered bots for owner `alice` (one below the quota). -/
def stQuotaTwo : ServerState :=
  ⟨[("alice_a_1", recQA), ("alice_b_2", recQB)], [], []⟩

/-- A well-formed upload request from `alice` for a bot named `d`. -/
def reqPy : UploadRequest := ⟨some "a.py", [], some "alice", some "d"⟩

/-- C4 counterexample: an owner holding one registered bot (at most
N − 1 = 2) makes an otherwise valid upload that succeeds — yet creates NO
new Registry entry, because the generated id collides with her existing
same-second entry and `bots_db[bot_id] = ...` overwrites it in place: the
Registry's size is unchanged, refuting "for every owner holding at most
N−1 bots, an otherwise valid upload succeeds and creates exactly one new
Registry entry". -/
theorem c4_counterexample :
    ((upload_bot stEmpty reqPy id 9 "t1").2.bots_db.filter
        (fun b => b.2.username = "alice")).length = 1 ∧
    (upload_bot (upload_bot stEmpty reqPy id 9 "t1").2 reqPy id 9 "t2").1 =
      .ok "alice_d_9" ∧
    (upload_bot (upload_bot stEmpty reqPy id 9 "t1").2 reqPy id 9 "t2").2.bots_db.length =
      (upload_bot stEmpty reqPy id 9 "t1").2.bots_db.length := by
  decide

/-- C4 amended: an owner already holding `MAX_BOTS_PER_USER` (= 3)
registered bots gets the 403 quota error and the state is unchanged; for
an owner holding at most 2, an otherwise valid upload succeeds and the
stored record is written under the generated id — adding exactly one
Registry entry when that id is fresh, and overwriting the existing entry
(Registry size unchanged) when the id collides with an already-registered
one. -/
theorem c4_upload_quota (st : ServerState) (secure : String → String) (ts : Nat)
    (iso fname uname bname : String) (content : List Char)
    (hu : uname ≠ "") (hb : bname ≠ "") :
    (((st.bots_db.filter (fun b => b.2.username = uname)).length = MAX_BOTS_PER_USER →
      (upload_bot st ⟨some fname, content, some uname, some bname⟩ secure ts iso).1 =
        .error (403, quotaMessage) ∧
      (upload_bot st ⟨some fname, content, some uname, some bname⟩ secure ts iso).2 = st) ∧
    ((st.bots_db.filter (fun b => b.2.username = uname)).length ≤ MAX_BOTS_PER_USER - 1 →
      fname ≠ "" → allowed_file fname = true →
      (upload_bot st ⟨some fname, content, some uname, some bname⟩ secure ts iso).1 =
        .ok (generate_bot_id uname bname ts) ∧
      (upload_bot st ⟨some fname, content, some uname, some bname⟩ secure ts iso).2.bots_db =
        dictSet (generate_bot_id uname bname ts)
          { id := generate_bot_id uname bname ts, name := bname, username := uname,
            filepath := os_path_join UPLOAD_FOLDER
              (secure (generate_bot_id uname bname ts ++ "." ++ extAfterLastDot fname)),
            file_type := extAfterLastDot fname, created_at := iso, status := "stopped" }
          st.bots_db ∧
      (dictGet (generate_bot_id uname bname ts) st.bots_db = none →
        (upload_bot st ⟨some fname, content, some uname, some bname⟩ secure ts iso).2.bots_db.length =
          st.bots_db.length + 1) ∧
      ((dictGet (generate_bot_id uname bname ts) st.bots_db).isSome →
        (upload_bot st ⟨some fname, content, some uname, some bname⟩ secure ts iso).2.bots_db.length =
          st.bots_db.length))) := by
  constructor
  · intro hn
    have hge : MAX_BOTS_PER_USER ≤
        (st.bots_db.filter (fun b => b.2.username = uname)).length := le_of_eq hn.symm
    simp [upload_bot, hu, hb, hge]
  · intro hn hf ha
    have hlt : ¬ MAX_BOTS_PER_USER ≤
        (st.bots_db.filter (fun b => b.2.username = uname)).length := by
      simp [MAX_BOTS_PER_USER] at hn ⊢
      omega
    refine ⟨?_, ?_, ?_, ?_⟩
    · simp [upload_bot, hu, hb, hlt, hf, ha]
    · simp [upload_bot, hu, hb, hlt, hf, ha]
    · intro hfresh
      simp [upload_bot, hu, hb, hlt, hf, ha,
        length_dictSet_of_fresh _ _ _ hfresh]
    · intro hpresent
      simp [upload_bot, hu, hb, hlt, hf, ha,
        length_dictSet_of_present _ _ _ hpresent]

/-- Witness for C4's amended theorem: the full owner is rejected with the
state unchanged; the owner with two bots succeeds under a fresh id and
the Registry grows to three; the owner with one bot re-uploading in the
same second succeeds with the Registry size unchanged. -/
theorem c4_witness :
    (upload_bot stQuotaFull reqPy id 9 "t").1 = .error (403, quotaMessage) ∧
    (upload_bot stQuotaFull reqPy id 9 "t").2 = stQuotaFull ∧
    (upload_bot stQuotaTwo reqPy id 9 "t").1 = .ok (generate_bot_id "alice" "d" 9) ∧
    (upload_bot stQuotaTwo reqPy id 9 "t").2.bots_db.length =
      stQuotaTwo.bots_db.length + 1 ∧
    (upload_bot (upload_bot stEmpty reqPy id 9 "t1").2 reqPy id 9 "t2").2.bots_db.length =
      (upload_bot stEmpty reqPy id 9 "t1").2.bots_db.length :=
  ⟨((c4_upload_quota stQuotaFull id 9 "t" "a.py" "alice" "d" []
      (by decide) (by decide)).1 (by decide)).1,
   ((c4_upload_quota stQuotaFull id 9 "t" "a.py" "alice" "d" []
      (by decide) (by decide)).1 (by decide)).2,
   ((c4_upload_quota stQuotaTwo id 9 "t" "a.py" "alice" "d" []
      (by decide) (by decide)).2 (by decide) (by decide) (by decide)).1,
   ((c4_upload_quota stQuotaTwo id 9 "t" "a.py" "alice" "d" []
      (by decide) (by decide)).2 (by decide) (by decide) (by decide)).2.2.1 (by decide),
   ((c4_upload_quota (upload_bot stEmpty reqPy id 9 "t1").2 id 9 "t2" "a.py" "alice" "d" []
      (by decide) (by decide)).2 (by decide) (by decide) (by decide)).2.2.2 (by decide)⟩

/-- C6 counterexample: the metadata dict stored by `upload_bot`
(src/app.py lines 112-120) carries a seventh key `'status'` besides the
six the claim allows, and the record a concrete upload stores holds the
lifecycle value `"stopped"` under it — refuting "lifecycle status is
never stored as a field on a BotRecord held by the Registry". -/
theorem c6_counterexample :
    "status" ∈ uploadRecordKeys ∧
    uploadRecordKeys ≠ ["id", "name", "username", "filepath", "file_type", "created_at"] ∧
    (dictGet "alice_d_9" (upload_bot stEmpty reqPy id 9 "t").2.bots_db).map
      BotRecord.status = some "stopped" := by
  decide

/-- C6 amended: `upload_bot` does store a `status` field (always
`"stopped"`) on the record, but the field is never consulted: the status
reported by `get_bot_status` is derived exclusively from Process Table
membership at query time, whatever the stored field holds. -/
theorem c6_status_field_stored_not_consulted (st : ServerState) (secure : String → String)
    (ts : Nat) (iso fname uname bname : String) (content : List Char)
    (hu : uname ≠ "") (hb : bname ≠ "")
    (hq : ¬ MAX_BOTS_PER_USER ≤ (st.bots_db.filter (fun b => b.2.username = uname)).length)
    (hf : fname ≠ "") (ha : allowed_file fname = true) :
    (dictGet (generate_bot_id uname bname ts)
        (upload_bot st ⟨some fname, content, some uname, some bname⟩ secure ts iso).2.bots_db).map
      BotRecord.status = some "stopped" ∧
    "status" ∈ uploadRecordKeys ∧
    (∀ st' bid b probe v, dictGet bid st'.bots_db = some b →
      get_bot_status st' bid probe = .ok v →
      v.status = (if (dictGet bid st'.running_processes).isSome
                  then "running" else "stopped")) := by
  refine ⟨?_, by decide, ?_⟩
  · simp [upload_bot, hu, hb, hq, hf, ha, dictGet_dictSet_self]
  · intro st' bid b probe v hdb hv
    cases hrp : dictGet bid st'.running_processes with
    | some rp =>
      simp [get_bot_status, hdb, hrp] at hv
      simp [← hv, hrp]
    | none =>
      simp [get_bot_status, hdb, hrp] at hv
      simp [← hv, hrp]

/-- Witness for C6's amended theorem: a concrete upload stores the
`"stopped"` status field. -/
theorem c6_witness :
    (dictGet (generate_bot_id "alice" "d" 9)
        (upload_bot stEmpty reqPy id 9 "t").2.bots_db).map
      BotRecord.status = some "stopped" :=
  (c6_status_field_stored_not_consulted stEmpty id 9 "t" "a.py" "alice" "d" []
    (by decide) (by decide) (by decide) (by decide) (by decide)).1

/-- C7 counterexample: two uploads by owner `alice` of a bot named `d` in
the same clock second (`int(time.time()) = 9` both times) generate the
identical id `alice_d_9`; the second upload overwrites the first Registry
entry (the Registry still has exactly one entry, now carrying the second
call's creation time) — refuting "the generated bot identifiers are fresh
and unique ... never produce the same id". -/
theorem c7_counterexample :
    (upload_bot stEmpty reqPy id 9 "t1").1 = .ok "alice_d_9" ∧
    (upload_bot (upload_bot stEmpty reqPy id 9 "t1").2 reqPy id 9 "t2").1 =
      .ok "alice_d_9" ∧
    (upload_bot (upload_bot stEmpty reqPy id 9 "t1").2 reqPy id 9 "t2").2.bots_db.length
      = 1 ∧
    (dictGet "alice_d_9"
        (upload_bot (upload_bot stEmpty reqPy id 9 "t1").2 reqPy id 9 "t2").2.bots_db).map
      BotRecord.created_at = some "t2" := by
  decide

/-- C7 amended: the id is `owner ++ "_" ++ name ++ "_" ++ str(seconds)`,
so calls in the same clock second with the same owner and name yield the
identical id; an otherwise valid upload whose generated id is already
registered replaces that Registry entry in place (the Registry does not
grow), while one with a fresh id adds exactly one entry. -/
theorem c7_same_second_id_collision (st : ServerState) (secure : String → String)
    (ts : Nat) (iso fname uname bname : String) (content : List Char)
    (hu : uname ≠ "") (hb : bname ≠ "")
    (hq : ¬ MAX_BOTS_PER_USER ≤ (st.bots_db.filter (fun b => b.2.username = uname)).length)
    (hf : fname ≠ "") (ha : allowed_file fname = true) :
    generate_bot_id uname bname ts = uname ++ "_" ++ bname ++ "_" ++ toString ts ∧
    ((dictGet (generate_bot_id uname bname ts) st.bots_db).isSome →
      (upload_bot st ⟨some fname, content, some uname, some bname⟩ secure ts iso).2.bots_db.length
        = st.bots_db.length ∧
      dictGet (generate_bot_id uname bname ts)
        (upload_bot st ⟨some fname, content, some uname, some bname⟩ secure ts iso).2.bots_db =
        some { id := generate_bot_id uname bname ts, name := bname, username := uname,
               filepath := os_path_join UPLOAD_FOLDER
                 (secure (generate_bot_id uname bname ts ++ "." ++ extAfterLastDot fname)),
               file_type := extAfterLastDot fname, created_at := iso,
               status := "stopped" }) ∧
    (dictGet (generate_bot_id uname bname ts) st.bots_db = none →
      (upload_bot st ⟨some fname, content, some uname, some bname⟩ secure ts iso).2.bots_db.length
        = st.bots_db.length + 1) := by
  refine ⟨rfl, ?_, ?_⟩
  · intro hpresent
    constructor
    · simp [upload_bot, hu, hb, hq, hf, ha,
        length_dictSet_of_present _ _ _ hpresent]
    · simp [upload_bot, hu, hb, hq, hf, ha, dictGet_dictSet_self]
  · intro hfresh
    simp [upload_bot, hu, hb, hq, hf, ha,
      length_dictSet_of_fresh _ _ _ hfresh]

/-- Witness for C7's amended theorem: re-uploading `alice`'s bot `d` in
the same second replaces the single existing entry. -/
theorem c7_witness :
    generate_bot_id "alice" "d" 9 = "alice" ++ "_" ++ "d" ++ "_" ++ toString (9 : Nat) ∧
    (upload_bot (upload_bot stEmpty reqPy id 9 "t1").2 reqPy id 9 "t2").2.bots_db.length =
      (upload_bot stEmpty reqPy id 9 "t1").2.bots_db.length :=
  ⟨(c7_same_second_id_collision (upload_bot stEmpty reqPy id 9 "t1").2 id 9 "t2"
      "a.py" "alice" "d" [] (by decide) (by decide) (by decide) (by decide) (by decide)).1,
   ((c7_same_second_id_collision (upload_bot stEmpty reqPy id 9 "t1").2 id 9 "t2"
      "a.py" "alice" "d" [] (by decide) (by decide) (by decide) (by decide) (by decide)).2.1
     (by decide)).1⟩

/-! ## Split/join lemmas for the log tail -/

theorem pySplit_no_sep (sep : Char) (l : List Char) (h : sep ∉ l) :
    pySplit sep l = [l] := by
  induction l with
  | nil => simp [pySplit]
  | cons c rest ih =>
    have hc : ¬ c = sep := fun hh => h (hh ▸ List.mem_cons_self c rest)
    have hrest : sep ∉ rest := fun hh => h (List.mem_cons_of_mem c hh)
    simp [pySplit, hc, ih hrest]

theorem pySplit_line (sep : Char) (l rest : List Char) (h : sep ∉ l) :
    pySplit sep (l ++ sep :: rest) = l :: pySplit sep rest := by
  induction l with
  | nil => simp [pySplit]
  | cons c l' ih =>
    have hc : ¬ c = sep := fun hh => h (hh ▸ List.mem_cons_self c l')
    have hl' : sep ∉ l' := fun hh => h (List.mem_cons_of_mem c hh)
    simp [pySplit, hc, ih hl']

theorem joinNl_single (l : List Char) : joinNl [l] = l := by
  simp [joinNl]

theorem joinNl_cons_cons (a b : List Char) (t : List (List Char)) :
    joinNl (a :: b :: t) = a ++ '\n' :: joinNl (b :: t) := by
  simp [joinNl, List.intersperse]

theorem pySplit_joinNl (ls : List (List Char)) (h : ∀ l ∈ ls, '\n' ∉ l)
    (hne : ls ≠ []) : pySplit '\n' (joinNl ls) = ls := by
  induction ls with
  | nil => exact absurd rfl hne
  | cons a t ih =>
    cases t with
    | nil => rw [joinNl_single, pySplit_no_sep '\n' a (h a (List.mem_cons_self a []))]
    | cons b t' =>
      rw [joinNl_cons_cons, pySplit_line '\n' a _ (h a (List.mem_cons_self a _)),
        ih (fun l hl => h l (List.mem_cons_of_mem a hl)) (by simp)]

theorem pySplit_joinNl_newline (ls : List (List Char)) (h : ∀ l ∈ ls, '\n' ∉ l)
    (hne : ls ≠ []) : pySplit '\n' (joinNl ls ++ ['\n']) = ls ++ [[]] := by
  induction ls with
  | nil => exact absurd rfl hne
  | cons a t ih =>
    cases t with
    | nil =>
      rw [joinNl_single]
      have : a ++ ['\n'] = a ++ '\n' :: ([] : List Char) := by simp
      rw [this, pySplit_line '\n' a [] (h a (List.mem_cons_self a []))]
      simp [pySplit]
    | cons b t' =>
      rw [joinNl_cons_cons, List.append_assoc, List.cons_append,
        pySplit_line '\n' a _ (h a (List.mem_cons_self a _)),
        ih (fun l hl => h l (List.mem_cons_of_mem a hl)) (by simp)]
      simp

theorem joinNl_append_empty (ls : List (List Char)) (hne : ls ≠ []) :
    joinNl (ls ++ [[]]) = joinNl ls ++ ['\n'] := by
  induction ls with
  | nil => exact absurd rfl hne
  | cons a t ih =>
    cases t with
    | nil =>
      rw [joinNl_single]
      show joinNl [a, []] = a ++ ['\n']
      rw [joinNl_cons_cons, joinNl_single]
    | cons b t' =>
      show joinNl (a :: b :: (t' ++ [[]])) = _
      rw [joinNl_cons_cons, joinNl_cons_cons]
      have : (b :: t') ++ [[]] = b :: (t' ++ [[]]) := by simp
      rw [← this, ih (by simp)]
      simp

/-- The fixed set of lines of the C8 scenario: 1500 lines `"a"`. -/
def lines1500 : List (List Char) := List.replicate 1500 ['a']

/-- The C8 log file: 1500 lines, each terminated by a newline (the form a
process writing whole lines produces). -/
def logContent1500 : List Char := joinNl lines1500 ++ ['\n']

/-- State with `recA` registered and its log file holding 1500 lines. -/
def stLog1500 : ServerState :=
  ⟨[("alice_echo_7", recA)], [], [("/tmp/bots/alice_echo_7.log", logContent1500)]⟩

/-- Modelled from the spec: "the last 1000 lines of the file, in their
original order" — the text obtained by joining the last `n` of a file's
lines. -/
def specLastLinesText (lines : List (List Char)) (n : Nat) : List Char :=
  joinNl (lines.drop (lines.length - n))

theorem count_a_joinNl_replicate (n : Nat) :
    (joinNl (List.replicate n ['a'])).count 'a' = n := by
  induction n with
  | zero => simp [joinNl]
  | succ m ih =>
    cases m with
    | zero => simp [joinNl]
    | succ k =>
      have h2 : List.replicate (k + 2) (['a'] : List Char) =
          ['a'] :: ['a'] :: List.replicate k ['a'] := by
        rw [List.replicate_succ, List.replicate_succ]
      have h3 : ['a'] :: List.replicate k (['a'] : List Char) =
          List.replicate (k + 1) ['a'] := (List.replicate_succ _ _).symm
      rw [h2, joinNl_cons_cons, h3]
      simp only [List.count_append, List.count_cons] at *
      simp [ih]
      omega

/-- C8 counterexample: on a log file holding 1500 newline-terminated
lines `"a"`, `split('\n')` yields 1501 segments (the trailing empty one
included), so the kept tail of 1000 segments carries only the last 999
lines: the returned text contains 999 `'a'`s where the last 1000 lines
of the file contain 1000 — refuting "returns exactly the last 1000
lines". -/
theorem c8_counterexample :
    get_bot_logs stLog1500 "alice_echo_7" =
      .ok (joinNl (List.replicate 999 ['a']) ++ ['\n']) ∧
    (joinNl (List.replicate 999 ['a']) ++ ['\n']).count 'a' = 999 ∧
    (specLastLinesText lines1500 1000).count 'a' = 1000 ∧
    get_bot_logs stLog1500 "alice_echo_7" ≠ .ok (specLastLinesText lines1500 1000) := by
  have hnl : ∀ l ∈ lines1500, '\n' ∉ l := by
    intro l hl
    rw [List.eq_of_mem_replicate hl]
    decide
  have hne : lines1500 ≠ [] := by
    intro hh
    have := congrArg List.length hh
    simp [lines1500] at this
  have hdb : dictGet "alice_echo_7" stLog1500.bots_db = some recA := rfl
  have hfs : dictGet (os_path_join UPLOAD_FOLDER ("alice_echo_7" ++ ".log"))
      stLog1500.fs = some logContent1500 := rfl
  have hsplit : pySplit '\n' logContent1500 = lines1500 ++ [[]] :=
    pySplit_joinNl_newline lines1500 hnl hne
  have hlen : (lines1500 ++ [[]]).length = 1501 := by simp [lines1500]
  have hdrop : (lines1500 ++ [[]]).drop 501 = List.replicate 999 ['a'] ++ [[]] := by
    rw [List.drop_append_of_le_length (by simp [lines1500]), lines1500,
      List.drop_replicate]
  have hrepne : List.replicate 999 (['a'] : List Char) ≠ [] := by simp
  have h1 : get_bot_logs stLog1500 "alice_echo_7" =
      .ok (joinNl (List.replicate 999 ['a']) ++ ['\n']) := by
    simp only [get_bot_logs, hdb, hfs, hsplit, hlen]
    norm_num
    rw [hdrop, joinNl_append_empty _ hrepne]
  have h2 : (joinNl (List.replicate 999 ['a']) ++ ['\n']).count 'a' = 999 := by
    rw [List.count_append, count_a_joinNl_replicate]
    decide
  have h3 : (specLastLinesText lines1500 1000).count 'a' = 1000 := by
    have hd : lines1500.drop (lines1500.length - 1000) = List.replicate 1000 ['a'] := by
      simp [lines1500, List.drop_replicate]
    rw [specLastLinesText, hd, count_a_joinNl_replicate]
  refine ⟨h1, h2, h3, ?_⟩
  intro h
  have heq := Except.ok.inj (h1.symm.trans h)
  have hc := congrArg (List.count 'a') heq
  rw [h2, h3] at hc
  exact absurd hc (by decide)

/-- C8 amended: for a registered bot whose log file holds 1500
newline-free lines, `get_bot_logs` returns exactly the last 1000 lines in
original order when the file does NOT end in a newline; when the file is
newline-terminated (the usual case for line-oriented output), the trailing
empty split segment counts toward the 1000, and the call returns the last
999 lines followed by the trailing newline. -/
theorem c8_logs_tail_1500 (st : ServerState) (bot_id : String) (b : BotRecord)
    (ls : List (List Char)) (hdb : dictGet bot_id st.bots_db = some b)
    (hlen : ls.length = 1500) (hnl : ∀ l ∈ ls, '\n' ∉ l) :
    (dictGet (os_path_join UPLOAD_FOLDER (bot_id ++ ".log")) st.fs = some (joinNl ls) →
      get_bot_logs st bot_id = .ok (joinNl (ls.drop 500))) ∧
    (dictGet (os_path_join UPLOAD_FOLDER (bot_id ++ ".log")) st.fs =
        some (joinNl ls ++ ['\n']) →
      get_bot_logs st bot_id = .ok (joinNl (ls.drop 501) ++ ['\n'])) := by
  have hne : ls ≠ [] := by
    intro hh
    rw [hh] at hlen
    simp at hlen
  constructor
  · intro hfs
    simp only [get_bot_logs, hdb, hfs]
    simp only [pySplit_joinNl ls hnl hne, hlen]
    norm_num
  · intro hfs
    simp only [get_bot_logs, hdb, hfs]
    simp only [pySplit_joinNl_newline ls hnl hne]
    have hlen' : (ls ++ [[]]).length = 1501 := by simp [hlen]
    have hdrop : (ls ++ [[]]).drop 501 = ls.drop 501 ++ [[]] :=
      List.drop_append_of_le_length (by omega)
    have hdropne : ls.drop 501 ≠ [] := by
      intro hh
      have := List.length_drop 501 ls
      rw [hh, hlen] at this
      simp at this
    simp only [hlen']
    norm_num
    rw [hdrop, joinNl_append_empty _ hdropne]

/-- Witness for C8's amended theorem on the concrete 1500-line log. -/
theorem c8_witness :
    get_bot_logs stLog1500 "alice_echo_7" =
      .ok (joinNl (lines1500.drop 501) ++ ['\n']) :=
  (c8_logs_tail_1500 stLog1500 "alice_echo_7" recA lines1500 rfl
      (List.length_replicate 1500 ['a'])
      (by
        intro l hl
        rw [List.eq_of_mem_replicate hl]
        decide)).2 rfl

/-- The C10 upload request: filename with uppercase extension `.PY`. -/
def reqUpper : UploadRequest := ⟨some "bot.PY", [], some "alice", some "d"⟩

/-- C10: the upload of `bot.PY` is accepted (`allowed_file` lowercases the
suffix before the check) and stores `file_type = "PY"` (no lowercasing,
src/app.py line 117), so every subsequent start — whatever the spawn
outcome and clock — fails with the unsupported-file-type error. -/
theorem c10_uppercase_extension_unstartable :
    allowed_file "bot.PY" = true ∧
    (upload_bot stEmpty reqUpper id 9 "t").1 = .ok "alice_d_9" ∧
    (dictGet "alice_d_9" (upload_bot stEmpty reqUpper id 9 "t").2.bots_db).map
      BotRecord.file_type = some "PY" ∧
    ∀ spawnResult iso,
      (start_bot (upload_bot stEmpty reqUpper id 9 "t").2
          "alice_d_9" spawnResult iso).1 = .error (400, "Unsupported file type") :=
  ⟨by decide, by decide, by decide, fun spawnResult iso => rfl⟩

end BotHost
